import Mathlib

/-!
Shallow embedding of the tax determination engine of
`src/irs_rules_engine.py` (class `IRSTaxEngine`), and proofs of the
specification claims about it.

Modelling conventions:
* Python floats carrying monetary amounts are modelled as exact rationals
  (`ℚ`); `round(x, 2)` is modelled by `roundCent` below.  (Python's `round`
  resolves exact half-cent ties to the even cent; `roundCent` rounds such
  ties up.  No quantity appearing in the claims sits on a half-cent tie, and
  every order/sign property proved below holds for either tie rule.)
* `float('inf')`, which occurs only as the upper bound of the last bracket,
  is modelled by `Option ℚ` with `none` standing for plus infinity.
* `self.filing_status`, mutable engine-instance state in the source, is
  passed as an explicit parameter `filing_status` to `calculate_tax`.
* The input dictionary `extracted_data` is modelled by the record
  `FilingData` whose fields are the keys the program reads or collects.
-/

/-- Model of Python `round(x, 2)`: round a rational to the nearest cent. -/
def roundCent (x : ℚ) : ℚ := (⌊x * 100 + 1 / 2⌋ : ℤ) / 100

/-- The `STANDARD_DEDUCTIONS` dictionary: filing status → standard deduction
(`irs_rules_engine.py` lines 8-14); `none` for a key not in the dictionary. -/
def STANDARD_DEDUCTIONS (s : String) : Option ℚ :=
  if s = "single" then some 14600
  else if s = "married_joint" then some 29200
  else if s = "head_of_household" then some 21900
  else if s = "married_separate" then some 14600
  else if s = "surviving_spouse" then some 29200
  else none

/-- The `TAX_BRACKETS_HOH` table (lines 17-25): `(bracket_min, bracket_max, rate)`
triples; the final `float('inf')` upper bound is `none`. -/
def TAX_BRACKETS_HOH : List (ℚ × Option ℚ × ℚ) :=
  [(0, some 11600, 0.10),
   (11600, some 47150, 0.12),
   (47150, some 100525, 0.22),
   (100525, some 191950, 0.24),
   (191950, some 243725, 0.32),
   (243725, some 609350, 0.35),
   (609350, none, 0.37)]

/-- Constant `CHILD_TAX_CREDIT = 2000.00` (line 28). -/
def CHILD_TAX_CREDIT : ℚ := 2000

/-- Constant `ADDITIONAL_CHILD_TAX_CREDIT_MAX = 1600.00` (line 29). -/
def ADDITIONAL_CHILD_TAX_CREDIT_MAX : ℚ := 1600

/-- The `EITC_2025` dictionary (lines 30-35): dependent tier → `(max_income, max_credit)`;
`none` for a key not in the dictionary. -/
def EITC_2025 (d : ℤ) : Option (ℚ × ℚ) :=
  if d = 0 then some (17900, 632)
  else if d = 1 then some (47900, 4257)
  else if d = 2 then some (53900, 7043)
  else if d = 3 then some (57900, 7931)
  else none

/-- The `for bracket_min, bracket_max, rate in brackets` loop of
`_calculate_tax_brackets` (lines 162-171), with the accumulator `tax` and the
running `prev_bracket`.  When `bracket_max` is `none` (the source's
`float('inf')`), `min(income, bracket_max)` is `income`; the assignment
`prev_bracket = bracket_max` then stores infinity, a value the source never
reads again because the infinite bound is the last entry of the table, so the
embedding leaves `prev_bracket` unchanged there. -/
def bracketLoop (income : ℚ) : List (ℚ × Option ℚ × ℚ) → ℚ → ℚ → ℚ
  | [], tax, _prev_bracket => tax
  | (bracket_min, bracket_max, rate) :: rest, tax, prev_bracket =>
    if bracket_min < income then
      let capped : ℚ := match bracket_max with
        | some m => min income m
        | none => income
      let taxable_in_bracket := capped - max bracket_min prev_bracket
      bracketLoop income rest (tax + taxable_in_bracket * rate)
        (match bracket_max with
          | some m => m
          | none => prev_bracket)
    else tax

/-- Well-formedness of a bracket table relative to the running
`prev_bracket` value `p`: bounds are ascending starting from `p`, rates are
non-negative, and an unbounded bracket (the source's `float('inf')`) can only
be the last entry.  `TAX_BRACKETS_HOH` satisfies this with `p = 0`. -/
def bracketsWF : ℚ → List (ℚ × Option ℚ × ℚ) → Prop
  | _, [] => True
  | p, (l, some u, r) :: rest => p ≤ l ∧ l ≤ u ∧ 0 ≤ r ∧ bracketsWF u rest
  | p, (l, none, r) :: rest => p ≤ l ∧ 0 ≤ r ∧ rest = []

/-- Model of `_calculate_tax_brackets` (lines 160-173): run the bracket loop from
`tax = 0.0`, `prev_bracket = 0`, and round the total once at the end. -/
def calculate_tax_brackets (income : ℚ) (brackets : List (ℚ × Option ℚ × ℚ)) : ℚ :=
  roundCent (bracketLoop income brackets 0 0)

/-- The credit block of `calculate_tax` (lines 69-78), returning
`(nonrefundable_child_credit, additional_child_credit)`. -/
def childCreditResolver (tax : ℚ) (dependents : ℤ) : ℚ × ℚ :=
  let total_child_credit := CHILD_TAX_CREDIT * (dependents : ℚ)
  let nonrefundable_child_credit := min total_child_credit tax
  let remaining_child_credit := total_child_credit - nonrefundable_child_credit
  let additional_child_credit :=
    min remaining_child_credit (ADDITIONAL_CHILD_TAX_CREDIT_MAX * (dependents : ℚ))
  (nonrefundable_child_credit, additional_child_credit)

/-- Model of `_calculate_eitc` (lines 175-189). -/
def calculate_eitc (wages : ℚ) (dependents : ℤ) : ℚ :=
  let dependents := if dependents > 3 then 3 else dependents
  let eitc_info := (EITC_2025 dependents).getD (17900, 632)
  if wages ≤ eitc_info.1 then eitc_info.2
  else
    let excess := wages - eitc_info.1
    let phaseout_rate : ℚ := if dependents > 0 then 0.1598 else 0.0765
    roundCent (max 0 (eitc_info.2 - excess * phaseout_rate))

/-- The fields of the `extracted_data` dictionary that the program reads
(`wages`, `federal_tax_withheld`, `dependent_count`, `interest_income`,
`dividends`) or collects without reading (`daycare_expenses`). -/
structure FilingData where
  wages : ℚ
  federal_tax_withheld : ℚ
  dependent_count : ℤ
  interest_income : ℚ
  dividends : ℚ
  daycare_expenses : ℚ
deriving DecidableEq, Repr

/-- The dictionary returned by `calculate_tax` (lines 145-158); the
`form_1040_lines` dictionary is modelled as an association list in insertion
order. -/
structure TaxResult where
  total_income : ℚ
  agi : ℚ
  standard_deduction : ℚ
  taxable_income : ℚ
  tax_amount : ℚ
  total_credits : ℚ
  total_tax : ℚ
  total_payments : ℚ
  refund : ℚ
  amount_owed : ℚ
  form_1040_lines : List (String × ℚ)
  filing_status : String
deriving DecidableEq, Repr

/-- The form-1040-lines block of `calculate_tax` (lines 117-142): the
dictionary in insertion order, with lines `"34"`/`"37"` filled according to
the sign of the refund. -/
def buildFormLines (wages interest_income dividends deduction taxable_income tax
    nonrefundable_child_credit eitc additional_child_credit tax_after_all
    federal_withheld line31 refund amount_owed : ℚ) : List (String × ℚ) :=
  [("1", roundCent wages),
   ("2b", roundCent interest_income),
   ("3b", roundCent dividends),
   ("7", roundCent wages),
   ("11", roundCent wages),
   ("12", roundCent deduction),
   ("15", roundCent taxable_income),
   ("16", roundCent tax),
   ("19", roundCent nonrefundable_child_credit),
   ("27", roundCent eitc),
   ("28", roundCent additional_child_credit),
   ("24", roundCent tax_after_all),
   ("25a", roundCent federal_withheld),
   ("31", line31)] ++
  (if refund > 0 then
     [("34", roundCent refund), ("37", 0)]
   else
     [("34", 0), ("37", roundCent amount_owed)])

/-- Model of `calculate_tax` (lines 40-158), with the engine's `self.filing_status`
passed explicitly. -/
def calculate_tax (filing_status : String) (extracted_data : FilingData) : TaxResult :=
  let wages := extracted_data.wages
  let federal_withheld := extracted_data.federal_tax_withheld
  let dependents := extracted_data.dependent_count
  -- 1. standard deduction: `self.STANDARD_DEDUCTIONS.get(self.filing_status, 14600)`
  let deduction := (STANDARD_DEDUCTIONS filing_status).getD 14600
  -- 2. taxable income
  let taxable_income := max 0 (wages - deduction)
  -- 3. tax calculation (both branches of the source use the HOH table)
  let tax :=
    if filing_status = "head_of_household" then
      calculate_tax_brackets taxable_income TAX_BRACKETS_HOH
    else
      calculate_tax_brackets taxable_income TAX_BRACKETS_HOH
  -- 4. credits
  let total_child_credit := CHILD_TAX_CREDIT * (dependents : ℚ)
  let nonrefundable_child_credit := (childCreditResolver tax dependents).1
  let additional_child_credit := (childCreditResolver tax dependents).2
  let eitc := calculate_eitc wages dependents
  -- 5. tax after credits
  let tax_after_nonrefundable := tax - nonrefundable_child_credit
  let tax_after_all := max 0 tax_after_nonrefundable
  -- 6. refund calculation
  let total_refundable_credits := additional_child_credit + eitc + federal_withheld
  let outcome : ℚ × ℚ :=
    if tax_after_all = 0 then
      (total_refundable_credits, 0)
    else
      (max 0 (total_refundable_credits - tax_after_all),
       max 0 (tax_after_all - total_refundable_credits))
  let refund := outcome.1
  let amount_owed := outcome.2
  -- 7. form 1040 lines
  let line31 := roundCent (federal_withheld + additional_child_credit + eitc)
  let form_lines : List (String × ℚ) :=
    buildFormLines wages extracted_data.interest_income extracted_data.dividends
      deduction taxable_income tax nonrefundable_child_credit eitc
      additional_child_credit tax_after_all federal_withheld line31 refund amount_owed
  { total_income := wages
    agi := wages
    standard_deduction := deduction
    taxable_income := taxable_income
    tax_amount := tax
    total_credits := total_child_credit + eitc
    total_tax := tax_after_all
    total_payments := line31
    refund := refund
    amount_owed := amount_owed
    form_1040_lines := form_lines
    filing_status := filing_status }

/-- The end-to-end scenario of the specification: head of household, wages
26263.00, withholding 264.00, one dependent, all other monetary fields 0. -/
def whitneyProfile : FilingData :=
  { wages := 26263, federal_tax_withheld := 264, dependent_count := 1,
    interest_income := 0, dividends := 0, daycare_expenses := 0 }

/-- A profile with a negative monetary field (`wages = -100`). -/
def negativeWagesProfile : FilingData :=
  { wages := -100, federal_tax_withheld := 0, dependent_count := 0,
    interest_income := 0, dividends := 0, daycare_expenses := 0 }

/-! ### Helper lemmas: rounding -/

theorem roundCent_mono {x y : ℚ} (h : x ≤ y) : roundCent x ≤ roundCent y := by
  unfold roundCent
  have hf : (⌊x * 100 + 1 / 2⌋ : ℤ) ≤ ⌊y * 100 + 1 / 2⌋ := Int.floor_mono (by linarith)
  have hq : ((⌊x * 100 + 1 / 2⌋ : ℤ) : ℚ) ≤ ((⌊y * 100 + 1 / 2⌋ : ℤ) : ℚ) := by
    exact_mod_cast hf
  linarith

theorem roundCent_nonneg {x : ℚ} (h : 0 ≤ x) : 0 ≤ roundCent x := by
  unfold roundCent
  have hf : (0 : ℤ) ≤ ⌊x * 100 + 1 / 2⌋ := Int.floor_nonneg.mpr (by linarith)
  have hq : (0 : ℚ) ≤ ((⌊x * 100 + 1 / 2⌋ : ℤ) : ℚ) := by exact_mod_cast hf
  linarith

theorem roundCent_zero : roundCent 0 = 0 := by norm_num [roundCent]

/-! ### Helper lemmas: the bracket loop -/

theorem le_bracketLoop (x : ℚ) :
    ∀ (L : List (ℚ × Option ℚ × ℚ)) (t p : ℚ), bracketsWF p L → t ≤ bracketLoop x L t p := by
  intro L
  induction L with
  | nil => intro t p _; exact le_of_eq rfl
  | cons b rest ih =>
    obtain ⟨l, mu, r⟩ := b
    intro t p hwf
    cases mu with
    | some u =>
      obtain ⟨hpl, hlu, hr, hrest⟩ := hwf
      by_cases hx : l < x
      · have hstep : bracketLoop x ((l, some u, r) :: rest) t p
            = bracketLoop x rest (t + (min x u - max l p) * r) u := by
          simp [bracketLoop, hx]
        have hport : 0 ≤ (min x u - max l p) * r := by
          have h1 : l ≤ min x u := le_min (le_of_lt hx) hlu
          have h2 : max l p = l := max_eq_left hpl
          exact mul_nonneg (by rw [h2]; linarith) hr
        calc t ≤ t + (min x u - max l p) * r := by linarith
          _ ≤ bracketLoop x rest (t + (min x u - max l p) * r) u := ih _ _ hrest
          _ = bracketLoop x ((l, some u, r) :: rest) t p := hstep.symm
      · simp [bracketLoop, hx]
    | none =>
      obtain ⟨hpl, hr, hrest⟩ := hwf
      subst hrest
      by_cases hx : l < x
      · have hstep : bracketLoop x [(l, none, r)] t p = t + (x - max l p) * r := by
          simp [bracketLoop, hx]
        rw [hstep]
        have h2 : max l p = l := max_eq_left hpl
        have : 0 ≤ (x - max l p) * r := mul_nonneg (by rw [h2]; linarith) hr
        linarith
      · simp [bracketLoop, hx]

theorem bracketLoop_mono_acc (x : ℚ) :
    ∀ (L : List (ℚ × Option ℚ × ℚ)) (t t' p : ℚ), t ≤ t' →
      bracketLoop x L t p ≤ bracketLoop x L t' p := by
  intro L
  induction L with
  | nil => intro t t' p h; simpa [bracketLoop] using h
  | cons b rest ih =>
    obtain ⟨l, mu, r⟩ := b
    intro t t' p h
    by_cases hx : l < x
    · cases mu with
      | some u =>
        simp only [bracketLoop, if_pos hx]
        exact ih _ _ _ (by linarith)
      | none =>
        simp only [bracketLoop, if_pos hx]
        exact ih _ _ _ (by linarith)
    · simpa [bracketLoop, hx] using h

theorem bracketLoop_mono_income {x y : ℚ} (hxy : x ≤ y) :
    ∀ (L : List (ℚ × Option ℚ × ℚ)) (t p : ℚ), bracketsWF p L →
      bracketLoop x L t p ≤ bracketLoop y L t p := by
  intro L
  induction L with
  | nil => intro t p _; exact le_of_eq rfl
  | cons b rest ih =>
    obtain ⟨l, mu, r⟩ := b
    intro t p hwf
    by_cases hy : l < y
    · cases mu with
      | some u =>
        obtain ⟨hpl, hlu, hr, hrest⟩ := hwf
        by_cases hx : l < x
        · have hsx : bracketLoop x ((l, some u, r) :: rest) t p
              = bracketLoop x rest (t + (min x u - max l p) * r) u := by
            simp [bracketLoop, hx]
          have hsy : bracketLoop y ((l, some u, r) :: rest) t p
              = bracketLoop y rest (t + (min y u - max l p) * r) u := by
            simp [bracketLoop, hy]
          rw [hsx, hsy]
          have hmin : min x u ≤ min y u := min_le_min hxy le_rfl
          have hacc : t + (min x u - max l p) * r ≤ t + (min y u - max l p) * r := by
            have := mul_le_mul_of_nonneg_right (sub_le_sub_right hmin (max l p)) hr
            linarith
          calc bracketLoop x rest (t + (min x u - max l p) * r) u
              ≤ bracketLoop y rest (t + (min x u - max l p) * r) u := ih _ _ hrest
            _ ≤ bracketLoop y rest (t + (min y u - max l p) * r) u :=
                bracketLoop_mono_acc y rest _ _ u hacc
        · have hsx : bracketLoop x ((l, some u, r) :: rest) t p = t := by
            simp [bracketLoop, hx]
          have hsy : bracketLoop y ((l, some u, r) :: rest) t p
              = bracketLoop y rest (t + (min y u - max l p) * r) u := by
            simp [bracketLoop, hy]
          rw [hsx, hsy]
          have hport : 0 ≤ (min y u - max l p) * r := by
            have h1 : l ≤ min y u := le_min (le_of_lt hy) hlu
            have h2 : max l p = l := max_eq_left hpl
            exact mul_nonneg (by rw [h2]; linarith) hr
          calc t ≤ t + (min y u - max l p) * r := by linarith
            _ ≤ bracketLoop y rest (t + (min y u - max l p) * r) u :=
                le_bracketLoop y rest _ u hrest
      | none =>
        obtain ⟨hpl, hr, hrest⟩ := hwf
        subst hrest
        have h2 : max l p = l := max_eq_left hpl
        by_cases hx : l < x
        · have hsx : bracketLoop x [(l, none, r)] t p = t + (x - max l p) * r := by
            simp [bracketLoop, hx]
          have hsy : bracketLoop y [(l, none, r)] t p = t + (y - max l p) * r := by
            simp [bracketLoop, hy]
          rw [hsx, hsy]
          have := mul_le_mul_of_nonneg_right (sub_le_sub_right hxy (max l p)) hr
          linarith
        · have hsx : bracketLoop x [(l, none, r)] t p = t := by simp [bracketLoop, hx]
          have hsy : bracketLoop y [(l, none, r)] t p = t + (y - max l p) * r := by
            simp [bracketLoop, hy]
          rw [hsx, hsy]
          have : 0 ≤ (y - max l p) * r := mul_nonneg (by rw [h2]; linarith) hr
          linarith
    · have hx : ¬ l < x := fun h => hy (lt_of_lt_of_le h hxy)
      cases mu with
      | some u => simp [bracketLoop, hx, hy]
      | none => simp [bracketLoop, hx, hy]

theorem TAX_BRACKETS_HOH_wf : bracketsWF 0 TAX_BRACKETS_HOH := by
  norm_num [bracketsWF, TAX_BRACKETS_HOH]

theorem calculate_tax_brackets_hoh_nonneg (x : ℚ) :
    0 ≤ calculate_tax_brackets x TAX_BRACKETS_HOH :=
  roundCent_nonneg (le_bracketLoop x TAX_BRACKETS_HOH 0 0 TAX_BRACKETS_HOH_wf)

theorem calculate_tax_brackets_hoh_mono {x y : ℚ} (h : x ≤ y) :
    calculate_tax_brackets x TAX_BRACKETS_HOH ≤ calculate_tax_brackets y TAX_BRACKETS_HOH :=
  roundCent_mono (bracketLoop_mono_income h TAX_BRACKETS_HOH 0 0 TAX_BRACKETS_HOH_wf)

/-! ### Helper lemmas: refund/owed resolution, credits, projections -/

theorem refundOutcome_excl (t trc : ℚ) :
    (if t = 0 then (trc, (0:ℚ)) else (max 0 (trc - t), max 0 (t - trc))).1 = 0 ∨
    (if t = 0 then (trc, (0:ℚ)) else (max 0 (trc - t), max 0 (t - trc))).2 = 0 := by
  by_cases h : t = 0
  · right; simp [h]
  · rcases le_total trc t with h' | h'
    · left; simp only [if_neg h]
      exact max_eq_left (by linarith)
    · right; simp only [if_neg h]
      exact max_eq_left (by linarith)

theorem refundOutcome_nonneg (t trc : ℚ) (h : 0 ≤ trc) :
    0 ≤ (if t = 0 then (trc, (0:ℚ)) else (max 0 (trc - t), max 0 (t - trc))).1 ∧
    0 ≤ (if t = 0 then (trc, (0:ℚ)) else (max 0 (trc - t), max 0 (t - trc))).2 := by
  by_cases h' : t = 0
  · simp [h', h]
  · simp only [if_neg h']
    exact ⟨le_max_left _ _, le_max_left _ _⟩

theorem buildFormLines_keys
    (w i dv de ti tx nr e ac ta fw l31 rf ao : ℚ) :
    (buildFormLines w i dv de ti tx nr e ac ta fw l31 rf ao).map Prod.fst =
      ["1", "2b", "3b", "7", "11", "12", "15", "16", "19", "27", "28", "24",
       "25a", "31", "34", "37"] := by
  unfold buildFormLines
  by_cases h : rf > 0 <;> simp [h]

theorem buildFormLines_34_or_37
    (w i dv de ti tx nr e ac ta fw l31 rf ao : ℚ) :
    (buildFormLines w i dv de ti tx nr e ac ta fw l31 rf ao).lookup "34" = some 0 ∨
    (buildFormLines w i dv de ti tx nr e ac ta fw l31 rf ao).lookup "37" = some 0 := by
  unfold buildFormLines
  by_cases h : rf > 0
  · right; simp +decide [h, List.lookup]
  · left; simp +decide [h, List.lookup]

theorem calculate_eitc_nonneg (w : ℚ) (d : ℤ) : 0 ≤ calculate_eitc w d := by
  simp only [calculate_eitc, EITC_2025]
  split_ifs <;>
    first
      | exact roundCent_nonneg (le_max_left _ _)
      | norm_num

theorem childCreditResolver_fst (t : ℚ) (d : ℤ) :
    (childCreditResolver t d).1 = min (CHILD_TAX_CREDIT * (d : ℚ)) t := rfl

theorem childCreditResolver_snd (t : ℚ) (d : ℤ) :
    (childCreditResolver t d).2 =
      min (CHILD_TAX_CREDIT * (d : ℚ) - min (CHILD_TAX_CREDIT * (d : ℚ)) t)
        (ADDITIONAL_CHILD_TAX_CREDIT_MAX * (d : ℚ)) := rfl

theorem childCreditResolver_nonneg (t : ℚ) (d : ℤ) (ht : 0 ≤ t) (hd : 0 ≤ d) :
    0 ≤ (childCreditResolver t d).1 ∧ 0 ≤ (childCreditResolver t d).2 := by
  have hdq : (0 : ℚ) ≤ (d : ℚ) := by exact_mod_cast hd
  have htotal : (0 : ℚ) ≤ CHILD_TAX_CREDIT * (d : ℚ) :=
    mul_nonneg (by norm_num [CHILD_TAX_CREDIT]) hdq
  constructor
  · rw [childCreditResolver_fst]
    exact le_min htotal ht
  · rw [childCreditResolver_snd]
    refine le_min ?_ (mul_nonneg (by norm_num [ADDITIONAL_CHILD_TAX_CREDIT_MAX]) hdq)
    have := min_le_left (CHILD_TAX_CREDIT * (d : ℚ)) t
    linarith

theorem calculate_tax_taxable_income (s : String) (p : FilingData) :
    (calculate_tax s p).taxable_income
      = max 0 (p.wages - (STANDARD_DEDUCTIONS s).getD 14600) := rfl

theorem calculate_tax_tax_amount (s : String) (p : FilingData) :
    (calculate_tax s p).tax_amount =
      calculate_tax_brackets (max 0 (p.wages - (STANDARD_DEDUCTIONS s).getD 14600))
        TAX_BRACKETS_HOH := by
  by_cases h : s = "head_of_household" <;> simp [calculate_tax, h]

/-! ### Claims -/

/-- Claim C1: for the head-of-household profile with wages 26263.00,
withholding 264.00 and one dependent, `calculate_tax` returns standard
deduction 21900.00, taxable income 4363.00, tax before credits 436.30,
non-refundable child credit 436.30 (form line 19), additional refundable
child credit 1563.70 (line 28), EITC 4257.00 (line 27), tax after
non-refundable credits 0.00 (line 24), refund 6084.70 and amount owed
0.00. -/
theorem c1_whitney_end_to_end :
    (calculate_tax "head_of_household" whitneyProfile).standard_deduction = 21900 ∧
    (calculate_tax "head_of_household" whitneyProfile).taxable_income = 4363 ∧
    (calculate_tax "head_of_household" whitneyProfile).tax_amount = 436.30 ∧
    (calculate_tax "head_of_household" whitneyProfile).form_1040_lines.lookup "19"
      = some 436.30 ∧
    (calculate_tax "head_of_household" whitneyProfile).form_1040_lines.lookup "28"
      = some 1563.70 ∧
    (calculate_tax "head_of_household" whitneyProfile).form_1040_lines.lookup "27"
      = some 4257 ∧
    (calculate_tax "head_of_household" whitneyProfile).form_1040_lines.lookup "24"
      = some 0 ∧
    (calculate_tax "head_of_household" whitneyProfile).refund = 6084.70 ∧
    (calculate_tax "head_of_household" whitneyProfile).amount_owed = 0 := by
  norm_num +decide [calculate_tax, whitneyProfile, calculate_tax_brackets,
    TAX_BRACKETS_HOH, bracketLoop, roundCent, childCreditResolver, calculate_eitc,
    EITC_2025, STANDARD_DEDUCTIONS, CHILD_TAX_CREDIT, ADDITIONAL_CHILD_TAX_CREDIT_MAX,
    buildFormLines, List.lookup]
  simp

/-- Claim C2 counterexample: the engine performs no input validation.  On the
profile with the negative monetary field `wages = -100`, `calculate_tax`
raises no error and produces a fully populated result — it even pays the full
tier-0 EITC of 632 as a refund — contradicting the claim that an
`InvalidProfile` condition is signalled before any computation begins and
that no (partial) result is produced. -/
theorem c2_counterexample_no_error :
    (calculate_tax "single" negativeWagesProfile).refund = 632 ∧
    (calculate_tax "single" negativeWagesProfile).form_1040_lines.map Prod.fst =
      ["1", "2b", "3b", "7", "11", "12", "15", "16", "19", "27", "28", "24",
       "25a", "31", "34", "37"] := by
  norm_num +decide [calculate_tax, negativeWagesProfile, calculate_tax_brackets,
    TAX_BRACKETS_HOH, bracketLoop, roundCent, childCreditResolver, calculate_eitc,
    EITC_2025, STANDARD_DEDUCTIONS, CHILD_TAX_CREDIT, ADDITIONAL_CHILD_TAX_CREDIT_MAX,
    buildFormLines]

/-- Claim C2 (amended): `calculate_tax` validates nothing.  It totally
computes a fully populated result for every input profile; in particular a
filing-status token outside the five recognized values is not rejected but
silently receives the single-filer standard deduction of 14600, and negative
monetary fields or a negative dependent count flow into the arithmetic
unchecked. -/
theorem c2_no_validation (s : String) (p : FilingData)
    (h : s ∉ ["single", "married_joint", "head_of_household", "married_separate",
              "surviving_spouse"]) :
    (calculate_tax s p).standard_deduction = 14600 ∧
    (calculate_tax s p).form_1040_lines.map Prod.fst =
      ["1", "2b", "3b", "7", "11", "12", "15", "16", "19", "27", "28", "24",
       "25a", "31", "34", "37"] := by
  simp only [List.mem_cons, List.mem_singleton, not_or] at h
  obtain ⟨h1, h2, h3, h4, h5⟩ := h
  constructor
  · have hd : (calculate_tax s p).standard_deduction
        = (STANDARD_DEDUCTIONS s).getD 14600 := rfl
    rw [hd]
    simp [STANDARD_DEDUCTIONS, h1, h2, h3, h4, h5]
  · simp only [calculate_tax]
    exact buildFormLines_keys _ _ _ _ _ _ _ _ _ _ _ _ _ _

/-- Witness for the amended claim C2 at the unrecognized status token
`"qualifying_widow"` and the all-zero profile. -/
theorem c2_no_validation_witness :
    ("qualifying_widow" ∉ ["single", "married_joint", "head_of_household",
        "married_separate", "surviving_spouse"]) ∧
    ((calculate_tax "qualifying_widow"
        { wages := 0, federal_tax_withheld := 0, dependent_count := 0,
          interest_income := 0, dividends := 0,
          daycare_expenses := 0 }).standard_deduction = 14600 ∧
     (calculate_tax "qualifying_widow"
        { wages := 0, federal_tax_withheld := 0, dependent_count := 0,
          interest_income := 0, dividends := 0,
          daycare_expenses := 0 }).form_1040_lines.map Prod.fst =
      ["1", "2b", "3b", "7", "11", "12", "15", "16", "19", "27", "28", "24",
       "25a", "31", "34", "37"]) :=
  ⟨by decide, c2_no_validation "qualifying_widow" _ (by decide)⟩

/-- Claim C3: for every filing status and input profile, at most one of
`refund` and `amount_owed` in the result of `calculate_tax` is nonzero. -/
theorem c3_refund_owed_exclusive (s : String) (p : FilingData) :
    (calculate_tax s p).refund = 0 ∨ (calculate_tax s p).amount_owed = 0 := by
  simp only [calculate_tax]
  exact refundOutcome_excl _ _

/-- Claim C4: for non-negative tax before credits and non-negative dependent
count, the child-credit resolver returns exactly
`min(2000 * d, tax)` as the non-refundable part and
`min(2000 * d - nonrefundable, 1600 * d)` as the refundable part, and their
sum never exceeds `2000 * d`. -/
theorem c4_child_credit_cap (t : ℚ) (d : ℤ) (ht : 0 ≤ t) (hd : 0 ≤ d) :
    (childCreditResolver t d).1 = min (2000 * (d : ℚ)) t ∧
    (childCreditResolver t d).2
      = min (2000 * (d : ℚ) - min (2000 * (d : ℚ)) t) (1600 * (d : ℚ)) ∧
    (childCreditResolver t d).1 + (childCreditResolver t d).2 ≤ 2000 * (d : ℚ) := by
  refine ⟨?_, ?_, ?_⟩
  · rw [childCreditResolver_fst]; norm_num [CHILD_TAX_CREDIT]
  · rw [childCreditResolver_snd]
    norm_num [CHILD_TAX_CREDIT, ADDITIONAL_CHILD_TAX_CREDIT_MAX]
  · rw [childCreditResolver_fst, childCreditResolver_snd]
    simp only [CHILD_TAX_CREDIT, ADDITIONAL_CHILD_TAX_CREDIT_MAX]
    have hadd := min_le_left
      (2000 * (d : ℚ) - min (2000 * (d : ℚ)) t) (1600 * (d : ℚ))
    linarith

/-- Witness for claim C4 at tax 436.30 and one dependent. -/
theorem c4_child_credit_cap_witness :
    (0 : ℚ) ≤ 436.30 ∧ (0 : ℤ) ≤ 1 ∧
    ((childCreditResolver 436.30 1).1 = min (2000 * ((1 : ℤ) : ℚ)) 436.30 ∧
     (childCreditResolver 436.30 1).2
       = min (2000 * ((1 : ℤ) : ℚ) - min (2000 * ((1 : ℤ) : ℚ)) 436.30)
           (1600 * ((1 : ℤ) : ℚ)) ∧
     (childCreditResolver 436.30 1).1 + (childCreditResolver 436.30 1).2
       ≤ 2000 * ((1 : ℤ) : ℚ)) :=
  ⟨by norm_num, by norm_num,
    c4_child_credit_cap 436.30 1 (by norm_num) (by norm_num)⟩

/-- Claim C5: on the fixed head-of-household schedule the bracket tax is
non-negative and monotonically non-decreasing in taxable income. -/
theorem c5_bracket_tax_monotone (x y : ℚ) (hx : 0 ≤ x) (hxy : x ≤ y) :
    0 ≤ calculate_tax_brackets x TAX_BRACKETS_HOH ∧
    calculate_tax_brackets x TAX_BRACKETS_HOH
      ≤ calculate_tax_brackets y TAX_BRACKETS_HOH :=
  ⟨calculate_tax_brackets_hoh_nonneg x, calculate_tax_brackets_hoh_mono hxy⟩

/-- Witness for claim C5 at incomes 4363 and 50000. -/
theorem c5_bracket_tax_monotone_witness :
    (0 : ℚ) ≤ 4363 ∧ (4363 : ℚ) ≤ 50000 ∧
    (0 ≤ calculate_tax_brackets 4363 TAX_BRACKETS_HOH ∧
     calculate_tax_brackets 4363 TAX_BRACKETS_HOH
       ≤ calculate_tax_brackets 50000 TAX_BRACKETS_HOH) :=
  ⟨by norm_num, by norm_num,
    c5_bracket_tax_monotone 4363 50000 (by norm_num) (by norm_num)⟩

/-- Claim C6: for every profile whose monetary fields and dependent count are
non-negative, the computed taxable income, tax before credits, non-refundable
and additional child credits, EITC, refund and amount owed are all
non-negative. -/
theorem c6_outputs_nonneg (s : String) (p : FilingData)
    (hw : 0 ≤ p.wages) (hf : 0 ≤ p.federal_tax_withheld)
    (hi : 0 ≤ p.interest_income) (hv : 0 ≤ p.dividends)
    (hc : 0 ≤ p.daycare_expenses) (hd : 0 ≤ p.dependent_count) :
    0 ≤ (calculate_tax s p).taxable_income ∧
    0 ≤ (calculate_tax s p).tax_amount ∧
    0 ≤ (childCreditResolver (calculate_tax s p).tax_amount p.dependent_count).1 ∧
    0 ≤ (childCreditResolver (calculate_tax s p).tax_amount p.dependent_count).2 ∧
    0 ≤ calculate_eitc p.wages p.dependent_count ∧
    0 ≤ (calculate_tax s p).refund ∧
    0 ≤ (calculate_tax s p).amount_owed := by
  have htax : 0 ≤ (calculate_tax s p).tax_amount := by
    rw [calculate_tax_tax_amount]
    exact calculate_tax_brackets_hoh_nonneg _
  have hcc := childCreditResolver_nonneg _ _ htax hd
  have heitc := calculate_eitc_nonneg p.wages p.dependent_count
  have htrc : 0 ≤ (childCreditResolver (calculate_tax s p).tax_amount
      p.dependent_count).2 + calculate_eitc p.wages p.dependent_count
      + p.federal_tax_withheld := by
    linarith [hcc.2]
  refine ⟨?_, htax, hcc.1, hcc.2, heitc, ?_, ?_⟩
  · rw [calculate_tax_taxable_income]
    exact le_max_left _ _
  · show 0 ≤ (calculate_tax s p).refund
    simp only [calculate_tax]
    exact (refundOutcome_nonneg _ _ htrc).1
  · show 0 ≤ (calculate_tax s p).amount_owed
    simp only [calculate_tax]
    exact (refundOutcome_nonneg _ _ htrc).2

/-- Witness for claim C6 at the head-of-household scenario profile. -/
theorem c6_outputs_nonneg_witness :
    (0 ≤ whitneyProfile.wages ∧ 0 ≤ whitneyProfile.federal_tax_withheld ∧
     0 ≤ whitneyProfile.interest_income ∧ 0 ≤ whitneyProfile.dividends ∧
     0 ≤ whitneyProfile.daycare_expenses ∧ 0 ≤ whitneyProfile.dependent_count) ∧
    (0 ≤ (calculate_tax "head_of_household" whitneyProfile).taxable_income ∧
     0 ≤ (calculate_tax "head_of_household" whitneyProfile).tax_amount ∧
     0 ≤ (childCreditResolver
            (calculate_tax "head_of_household" whitneyProfile).tax_amount
            whitneyProfile.dependent_count).1 ∧
     0 ≤ (childCreditResolver
            (calculate_tax "head_of_household" whitneyProfile).tax_amount
            whitneyProfile.dependent_count).2 ∧
     0 ≤ calculate_eitc whitneyProfile.wages whitneyProfile.dependent_count ∧
     0 ≤ (calculate_tax "head_of_household" whitneyProfile).refund ∧
     0 ≤ (calculate_tax "head_of_household" whitneyProfile).amount_owed) :=
  ⟨⟨by norm_num [whitneyProfile], by norm_num [whitneyProfile],
    by norm_num [whitneyProfile], by norm_num [whitneyProfile],
    by norm_num [whitneyProfile], by norm_num [whitneyProfile]⟩,
   c6_outputs_nonneg "head_of_household" whitneyProfile
     (by norm_num [whitneyProfile]) (by norm_num [whitneyProfile])
     (by norm_num [whitneyProfile]) (by norm_num [whitneyProfile])
     (by norm_num [whitneyProfile]) (by norm_num [whitneyProfile])⟩

/-- Claim C7: for non-negative wages and dependent count, the EITC
calculator clamps the dependent count to at most 3, looks the tier up in the
fixed table, pays the flat maximum credit at or below the income threshold,
and otherwise phases out at rate 0.1598 (0.0765 with zero dependents),
reaching exactly 0 once the excess times the rate is at least the maximum
credit. -/
theorem c7_eitc_phaseout (w : ℚ) (d : ℤ) (hw : 0 ≤ w) (hd : 0 ≤ d) :
    (calculate_eitc w d =
      if w ≤ ((EITC_2025 (min d 3)).getD (17900, 632)).1 then
        ((EITC_2025 (min d 3)).getD (17900, 632)).2
      else
        roundCent (max 0 (((EITC_2025 (min d 3)).getD (17900, 632)).2 -
          (w - ((EITC_2025 (min d 3)).getD (17900, 632)).1) *
            (if 0 < d then 0.1598 else 0.0765)))) ∧
    (((EITC_2025 (min d 3)).getD (17900, 632)).1 < w →
      ((EITC_2025 (min d 3)).getD (17900, 632)).2 ≤
        (w - ((EITC_2025 (min d 3)).getD (17900, 632)).1) *
          (if 0 < d then 0.1598 else 0.0765) →
      calculate_eitc w d = 0) := by
  have hclamp : (if d > 3 then 3 else d) = min d 3 := by
    by_cases h : d > 3
    · simp [h, min_eq_right (le_of_lt h)]
    · simp [h, min_eq_left (not_lt.mp h)]
  have hmain : calculate_eitc w d =
      if w ≤ ((EITC_2025 (min d 3)).getD (17900, 632)).1 then
        ((EITC_2025 (min d 3)).getD (17900, 632)).2
      else
        roundCent (max 0 (((EITC_2025 (min d 3)).getD (17900, 632)).2 -
          (w - ((EITC_2025 (min d 3)).getD (17900, 632)).1) *
            (if 0 < d then 0.1598 else 0.0765))) := by
    simp only [calculate_eitc, hclamp, gt_iff_lt, lt_min_iff]
    norm_num
  refine ⟨hmain, fun h1 h2 => ?_⟩
  rw [hmain, if_neg (not_le.mpr h1), max_eq_left (by linarith), roundCent_zero]

/-- Witness for claim C7 at wages 30000 with zero dependents: above the
tier-0 threshold the phase-out has driven the credit to 0. -/
theorem c7_eitc_phaseout_witness :
    (0 : ℚ) ≤ 30000 ∧ (0 : ℤ) ≤ 0 ∧
    ((calculate_eitc 30000 0 =
      if (30000 : ℚ) ≤ ((EITC_2025 (min 0 3)).getD (17900, 632)).1 then
        ((EITC_2025 (min 0 3)).getD (17900, 632)).2
      else
        roundCent (max 0 (((EITC_2025 (min 0 3)).getD (17900, 632)).2 -
          ((30000 : ℚ) - ((EITC_2025 (min 0 3)).getD (17900, 632)).1) *
            (if (0 : ℤ) < 0 then 0.1598 else 0.0765)))) ∧
    (((EITC_2025 (min 0 3)).getD (17900, 632)).1 < (30000 : ℚ) →
      ((EITC_2025 (min 0 3)).getD (17900, 632)).2 ≤
        ((30000 : ℚ) - ((EITC_2025 (min 0 3)).getD (17900, 632)).1) *
          (if (0 : ℤ) < 0 then 0.1598 else 0.0765) →
      calculate_eitc 30000 0 = 0)) :=
  ⟨by norm_num, by norm_num,
    c7_eitc_phaseout 30000 0 (by norm_num) (by norm_num)⟩

/-- Claim C8: for every filing status, the tax before credits produced by
`calculate_tax` is the head-of-household bracket schedule applied to the
taxable income — the bracket table does not depend on the selected status. -/
theorem c8_single_bracket_schedule (s : String) (p : FilingData) :
    (calculate_tax s p).tax_amount =
      calculate_tax_brackets ((calculate_tax s p).taxable_income)
        TAX_BRACKETS_HOH := by
  rw [calculate_tax_taxable_income, calculate_tax_tax_amount]

/-- Claim C9: `calculate_tax` is a pure function of the filing status and
the five consumed profile fields; `daycare_expenses` is a dead input, so two
profiles agreeing on everything else produce identical results. -/
theorem c9_daycare_dead_input (s : String) (p q : FilingData)
    (hw : p.wages = q.wages)
    (hf : p.federal_tax_withheld = q.federal_tax_withheld)
    (hd : p.dependent_count = q.dependent_count)
    (hi : p.interest_income = q.interest_income)
    (hv : p.dividends = q.dividends) :
    calculate_tax s p = calculate_tax s q := by
  obtain ⟨pw, pf, pd, pi, pv, pc⟩ := p
  obtain ⟨qw, qf, qd, qi, qv, qc⟩ := q
  have hw' : pw = qw := hw
  have hf' : pf = qf := hf
  have hd' : pd = qd := hd
  have hi' : pi = qi := hi
  have hv' : pv = qv := hv
  subst hw'; subst hf'; subst hd'; subst hi'; subst hv'
  rfl

/-- Witness for claim C9: two concrete profiles differing only in
`daycare_expenses` yield identical results. -/
theorem c9_daycare_dead_input_witness :
    calculate_tax "single"
      { wages := 100, federal_tax_withheld := 10, dependent_count := 1,
        interest_income := 2, dividends := 3, daycare_expenses := 5 } =
    calculate_tax "single"
      { wages := 100, federal_tax_withheld := 10, dependent_count := 1,
        interest_income := 2, dividends := 3, daycare_expenses := 99 } :=
  c9_daycare_dead_input "single" _ _ rfl rfl rfl rfl rfl

/-- Claim C10: the form-line map of every result contains exactly the fixed
sixteen keys, and lines 34 (refund) and 37 (amount owed) are both always
present with at least one of them equal to 0. -/
theorem c10_form_line_keys (s : String) (p : FilingData) :
    (calculate_tax s p).form_1040_lines.map Prod.fst =
      ["1", "2b", "3b", "7", "11", "12", "15", "16", "19", "27", "28", "24",
       "25a", "31", "34", "37"] ∧
    ((calculate_tax s p).form_1040_lines.lookup "34" = some 0 ∨
     (calculate_tax s p).form_1040_lines.lookup "37" = some 0) := by
  constructor
  · simp only [calculate_tax]
    exact buildFormLines_keys _ _ _ _ _ _ _ _ _ _ _ _ _ _
  · simp only [calculate_tax]
    exact buildFormLines_34_or_37 _ _ _ _ _ _ _ _ _ _ _ _ _ _
